import Mathlib

/-!
Verification of the RAMSES derived-field builder

Shallow embedding of `yt/frontends/ramses/fields.py` (class `RAMSESFieldInfo`
and its helpers).  Numeric samples are modelled as rationals (`ℚ`): every
operation the claims exercise is elementwise arithmetic on one cell/particle
sample, so numpy arrays are modelled by a single scalar sample and the
surrounding control flow is translated literally.  Transcendental numpy
collaborators (`log10`, `exp`, the float `10 **` power) and the unit/cosmology
collaborators (`t_frw`, conformal-time conversion, unit conversion factors)
are external to the file under test and are passed in as explicit function
parameters, so every definition stays computable.
-/

namespace RamsesFields

/-- A field key, the `(ftype, fname)` pair used for `data[ftype, fname]`
accesses and for `add_field` registration. -/
structure FieldKey where
  ftype : String
  fname : String
deriving DecidableEq, BEq

/-- Dataset-level state read by the field evaluators (`self.ds` / `data.ds`
in the source).  `conformalToPhysical` models the external collaborator
`convert_ramses_conformal_time_to_physical_time`, and `tFrwZero` the value
`t_frw(ds, 0)` of the external tabulated cosmological time integral; both
live outside `fields.py`. -/
structure Dataset where
  currentTime : ℚ
  currentTimeGyr : ℚ
  hubbleConstant : ℚ
  tFrwZero : ℚ
  conformalToPhysical : ℚ → ℚ
  cosmologicalSimulation : Bool
  useConformalTime : Bool
  selfShielding : Bool
  maxLevel : Nat
  axisOrder : List String

/-- The data context handed to every field evaluation function: `data[ft, fn]`
returns the (per-sample) value of that field, `data.ds` the dataset, and
`isFieldDetector` models `isinstance(data, FieldDetector)`. -/
structure Data where
  ds : Dataset
  fields : FieldKey → ℚ
  isFieldDetector : Bool

/-- Numeric collaborators used by the cooling-field evaluator: numpy
`log10`, `exp` and the float `10 **` power, external to the file under
test. -/
structure MathOps where
  log10 : ℚ → ℚ
  exp : ℚ → ℚ
  pow10 : ℚ → ℚ

/-! ## Warning recording

The fallback temperature evaluator calls `warnings.warn(...)` on every
evaluation.  The Python `warnings` module (an external stdlib collaborator)
records a warning under its default filter once per distinct
(message, category, call-site) key: repeated calls with the same key do not
record it again.  `WarnState`/`warnRecord` model that registry; all calls in
the embedded code share one call site and message, so the key is the message
string. -/

structure WarnState where
  recorded : List String
deriving DecidableEq

/-- Record a warning under the stdlib default-filter semantics: append the
message unless an identical one was already recorded. -/
def warnRecord (ws : WarnState) (msg : String) : WarnState :=
  if msg ∈ ws.recorded then ws else ⟨ws.recorded ++ [msg]⟩

/-- The message of the `RuntimeWarning` emitted by the fallback temperature
evaluator (source lines 241-249; text abridged, one fixed string either
way so the warning-registry key is unchanged). -/
def degradedTemperatureWarning : String :=
  "Trying to calculate temperature but the cooling tables could not be found or read. yt will return T/mu instead of T."

/-- The `_temperature` evaluator registered by `setup_fluid_fields`
(source lines 232-257): when `create_cooling_fields` succeeded the field is
`temperature_over_mu * mu`; otherwise it warns (except on a `FieldDetector`
pass) and returns `temperature_over_mu`. -/
def temperatureEval (foundCoolingFields : Bool) (data : Data) (ws : WarnState) :
    ℚ × WarnState :=
  if foundCoolingFields then
    (data.fields ⟨"gas", "temperature_over_mu"⟩ * data.fields ⟨"gas", "mu"⟩, ws)
  else
    let ws2 := if data.isFieldDetector then ws
               else warnRecord ws degradedTemperatureWarning
    (data.fields ⟨"gas", "temperature_over_mu"⟩, ws2)

/-- The warning state after `n` successive evaluations of the registered
temperature field against the same data context. -/
def tempWarnStateAfter (foundCoolingFields : Bool) (data : Data) :
    Nat → WarnState → WarnState
  | 0, ws => ws
  | n + 1, ws =>
      (temperatureEval foundCoolingFields data
        (tempWarnStateAfter foundCoolingFields data n ws)).2

/-! ## Stellar-age fields (`setup_particle_fields`, source lines 180-216) -/

/-- Numeric value of 1 km/s/Mpc expressed in 1/Gyr (the unit conversion
performed by the external unit collaborator in
`star_age_from_physical_cosmo`): (10^5 cm / 3.0856775814913673e24 cm) per
(Gyr / 3.15576e16 s). -/
def kmPerSecPerMpcInPerGyr : ℚ :=
  (315576 * 10 ^ 16) / (30856775814913673 * 10 ^ 8)

/-- Function `star_age_from_conformal_cosmo` (lines 183-188): convert the conformal
birth time through the external collaborator and subtract from the current
time. -/
def starAgeFromConformalCosmo (ptype : String) (data : Data) : ℚ :=
  let conformalAge := data.fields ⟨ptype, "conformal_birth_time"⟩
  let birthTime := data.ds.conformalToPhysical conformalAge
  data.ds.currentTime - birthTime

/-- Function `star_age_from_physical_cosmo` (lines 190-198): closed form from the
Hubble constant and the tabulated time integral `t_frw(ds, 0)`. -/
def starAgeFromPhysicalCosmo (ptype : String) (data : Data) : ℚ :=
  let H0 := data.ds.hubbleConstant * 100 * kmPerSecPerMpcInPerGyr
  let times := data.fields ⟨ptype, "conformal_birth_time"⟩
  let timeTot := data.ds.tFrwZero * H0
  let birthTime := (timeTot + times) / H0
  data.ds.currentTimeGyr - birthTime

/-- Function `star_age` (lines 200-202): non-cosmological direct subtraction. -/
def starAge (ptype : String) (data : Data) : ℚ :=
  let formationTime := data.fields ⟨ptype, "particle_birth_time"⟩
  data.ds.currentTime - formationTime

/-- The evaluator chosen by `setup_particle_fields` (lines 204-209) from the
two dataset flags and registered as `(ptype, "star_age")`. -/
def starAgeFun (ds : Dataset) (ptype : String) : Data → ℚ :=
  if ds.cosmologicalSimulation && ds.useConformalTime then
    starAgeFromConformalCosmo ptype
  else if ds.cosmologicalSimulation then
    starAgeFromPhysicalCosmo ptype
  else
    starAge ptype

/-! ## Field registry

`add_field` appends a definition; a later registration of the same key
shadows an earlier one, so lookup scans from the most recent entry. -/

abbrev Registry := List (FieldKey × (Data → ℚ))

/-- Registration primitive `add_field` for plain cell fields. -/
def addField (reg : Registry) (key : FieldKey) (f : Data → ℚ) : Registry :=
  reg ++ [(key, f)]

/-- Last-write-wins lookup of a registered field. -/
def lookupField (reg : Registry) (key : FieldKey) : Option (Data → ℚ) :=
  (reg.reverse.find? (fun p => p.1 == key)).map (fun p => p.2)

/-! ## Magnetic fields (`create_magnetic_fields`, source lines 289-324) -/

/-- The cell-centred field for one axis: average of the left and right face
values (lines 291-298). -/
def magFieldEval (ax : String) (data : Data) : ℚ :=
  (data.fields ⟨"gas", "magnetic_field_" ++ ax ++ "_left"⟩
    + data.fields ⟨"gas", "magnetic_field_" ++ ax ++ "_right"⟩) / 2

/-- Evaluator `_divB` (lines 308-316): accumulate `right - left` over the axis order,
then divide by the cell size `dx`. -/
def divBEval (data : Data) : ℚ :=
  let out := data.ds.axisOrder.foldl
    (fun out ax =>
      out + (data.fields ⟨"gas", "magnetic_field_" ++ ax ++ "_right"⟩
        - data.fields ⟨"gas", "magnetic_field_" ++ ax ++ "_left"⟩)) 0
  out / data.fields ⟨"gas", "dx"⟩

/-- The registrations performed by `create_magnetic_fields`: one centred
field per axis in the dataset axis order, then the divergence field. -/
def createMagneticFields (ds : Dataset) (reg : Registry) : Registry :=
  let reg1 := ds.axisOrder.foldl
    (fun r ax => addField r ⟨"gas", "magnetic_field_" ++ ax⟩ (magFieldEval ax)) reg
  addField reg1 ⟨"gas", "magnetic_field_divergence"⟩ divBEval

/-! ## Radiative-transfer reduced-speed-of-light padding
(`create_rt_fields`, source lines 330-342) -/

/-- The padded `rt_c_frac` array.  The source computes the pad width as
`max(0, self.ds.max_level - len(["rt_c_frac"]) + 1)`; note that
`len(["rt_c_frac"])` is the length of a one-element list literal, i.e. 1,
not the length of the fraction array.  The pad value is the sole element
when the input has length 1, and 1 otherwise (lines 334-337); `np.pad`
with widths `(0, w)` appends `w` copies. -/
def rtCFracPadded (rtCFrac : List ℚ) (maxLevel : Nat) : List ℚ :=
  let padValue : ℚ := if rtCFrac.length = 1 then rtCFrac.headD 0 else 1
  let padWidth : Int :=
    max 0 ((maxLevel : Int) - ((["rt_c_frac"] : List String).length : Int) + 1)
  rtCFrac ++ List.replicate padWidth.toNat padValue

/-! ## Cooling-table field evaluators (`_create_field`/`_func`,
source lines 433-461) -/

/-- Hydrogen fraction constants hardcoded in the source (lines 95-96):
`_Y = 0.24`. -/
def heliumFractionY : ℚ := 24 / 100

/-- Numeric value (grams) of the `mh` physical constant used to turn a mass
density into a hydrogen number density.  The exact decimal plays no role in
any claim; only the algebraic position of the constant does. -/
def mhCgs : ℚ := 16726219237 / 10 ^ 33

/-- Python `str.split("_")`: split a string at every underscore, keeping
empty pieces. -/
def splitOnUnderscore (s : String) : List String :=
  let groups := s.data.foldr
    (fun ch acc =>
      if ch = '_' then [] :: acc
      else
        match acc with
        | [] => [[ch]]
        | g :: gs => (ch :: g) :: gs)
    ([[]] : List (List Char))
  groups.map (fun g => String.mk g)

/-- Quantity `nH` as computed in `_func` (line 439): the hydrogen number density
`(1 - _Y) * (1 - Z) * density / mh` in 1/cm^3. -/
def nHValue (data : Data) : ℚ :=
  (1 - heliumFractionY) * (1 - data.fields ⟨"gas", "metallicity"⟩)
    * data.fields ⟨"gas", "density"⟩ / mhCgs

/-- The self-shielding boost factor (lines 440-443):
`np.maximum(np.exp(-nH / 0.01), 1e-20)` when `ds.self_shielding` is set,
else 1. -/
def boostValue (ops : MathOps) (data : Data) : ℚ :=
  if data.ds.selfShielding then
    max (ops.exp (-(nHValue data) / (1 / 100))) (1 / 10 ^ 20)
  else 1

/-- The `lognH` query coordinate fed to the interpolator (line 445):
`np.log10(nH / boost)`. -/
def lognHCoordinate (ops : MathOps) (data : Data) : ℚ :=
  ops.log10 (nHValue data / boostValue ops data)

/-- The `logT` query coordinate fed to the interpolator (line 446):
`np.log10(temperature_over_mu)`. -/
def logTCoordinate (ops : MathOps) (data : Data) : ℚ :=
  ops.log10 (data.fields ⟨"gas", "temperature_over_mu"⟩)

/-- The interpolated sample before any scaling (lines 448-450): the raw
table lookup for the `mu` field, and `10 **` of the lookup for every other
cooling table. -/
def coolingRawValue (ops : MathOps) (name : FieldKey) (interp : ℚ → ℚ → ℚ)
    (data : Data) : ℚ :=
  let rv0 := interp (lognHCoordinate ops data) (logTCoordinate ops data)
  if name.fname ≠ "mu" then ops.pow10 rv0 else rv0

/-- The `_func` evaluator closed over a field name and an interpolator
(lines 434-461): names with a `metal` component scale by metallicity/0.02,
names with a `compton` component are reinterpreted per-volume and divided by
the number density, everything else is returned as interpolated. -/
def coolingFieldFunc (ops : MathOps) (name : FieldKey) (interp : ℚ → ℚ → ℚ)
    (data : Data) : ℚ :=
  let rv := coolingRawValue ops name interp data
  if "metal" ∈ splitOnUnderscore name.fname then
    rv * data.fields ⟨"gas", "metallicity"⟩ / (2 / 100)
  else if "compton" ∈ splitOnUnderscore name.fname then
    rv / data.fields ⟨"gas", "number_density"⟩
  else
    rv

/-! ## Bilinear lookup-table interpolator

`BilinearFieldInterpolator` (from `yt.utilities.linear_interpolators`) is a
collaborator of this repository whose source is not under `src/`; it is
modelled from the spec below. -/

/-- Modelled from the spec: the truncation (out-of-bounds) policy of the
lookup-table interpolator — "queries outside the sampled range are clamped
to the nearest edge sample rather than extrapolated". -/
def clampCoord (xs : List ℚ) (x : ℚ) : ℚ :=
  let lo := xs.headD x
  let hi := xs.getLastD x
  if x < lo then lo else if hi < x then hi else x

/-- Modelled from the spec: locate the bracketing grid cell along one axis
for an in-range coordinate — the index `i` with `xs[i] ≤ x ≤ xs[i+1]`
(the spec performs this lookup by binary search over the monotone
coordinate sequence; the bracketing index found is the same). -/
def bracketIdx (xs : List ℚ) (x : ℚ) : Nat :=
  match xs with
  | [] => 0
  | [_] => 0
  | [_, _] => 0
  | _ :: b :: c :: rest => if x < b then 0 else bracketIdx (b :: c :: rest) x + 1

/-- Modelled from the spec: the bracketing index and fractional offset of a
query coordinate along one axis, after clamping.  A degenerate axis (one
sample) yields offset 0 against the sole sample, never dividing by a zero
spacing. -/
def axisIndexWeight (xs : List ℚ) (x : ℚ) : Nat × ℚ :=
  if xs.length ≤ 1 then (0, 0)
  else
    let xc := clampCoord xs x
    let i := bracketIdx xs xc
    let x0 := xs.getD i 0
    let x1 := xs.getD (i + 1) 0
    if x1 = x0 then (i, 0) else (i, (xc - x0) / (x1 - x0))

/-- A stored table sample, row index first. -/
def tableAt (table : List (List ℚ)) (i j : Nat) : ℚ :=
  (table.getD i []).getD j 0

/-- Modelled from the spec: `BilinearFieldInterpolator` evaluation
(`yt.utilities.linear_interpolators`, not under `src/`) with
`truncate=True` — bilinear interpolation of `table` (indexed by the
coordinate sequences `xs`, `ys`) at a query point: per-axis bracketing cell
and fractional offsets, four corner weights, weighted sum; out-of-range
coordinates clamped to the nearest edge sample. -/
def bilinearEval (xs ys : List ℚ) (table : List (List ℚ)) (x y : ℚ) : ℚ :=
  let iw := axisIndexWeight xs x
  let jw := axisIndexWeight ys y
  let i := iw.1
  let tx := iw.2
  let j := jw.1
  let ty := jw.2
  (1 - tx) * (1 - ty) * tableAt table i j
    + tx * (1 - ty) * tableAt table (i + 1) j
    + (1 - tx) * ty * tableAt table i (j + 1)
    + tx * ty * tableAt table (i + 1) (j + 1)

/-! ## Cooling-table ingestion (`create_cooling_fields`, source
lines 423-561)

The external `FortranFile` collaborator delivers the file as typed vectors;
a `CoolingFile` holds those already-read vectors (`none` models a missing
file, i.e. the `os.path.exists` check failing).  All functions below are
total: the translated paths contain no exception sources, which is how the
"never raises" parts of the claims are expressed. -/

structure CoolingFile where
  n1 : Nat
  n2 : Nat
  lognH : List ℚ
  logT : List ℚ
  vars : List (List ℚ)

/-- Source line 33 (`cooling_function_units`), leading space included. -/
def coolingFunctionUnits : String := " erg * cm**3 /s"

/-- Source line 34 (`cooling_function_prime_units`). -/
def coolingFunctionPrimeUnits : String := " erg * cm**3 /s/K"

/-- Table `_cool_arrs` (source lines 72-85): the fixed sequence of named value
tables, with their unit strings (`none` for `mu` and `abundances`). -/
def coolArrs : List (String × Option String) :=
  [("cooling_primordial", some coolingFunctionUnits),
   ("heating_primordial", some coolingFunctionUnits),
   ("cooling_compton", some coolingFunctionUnits),
   ("heating_compton", some coolingFunctionUnits),
   ("cooling_metal", some coolingFunctionUnits),
   ("cooling_primordial_prime", some coolingFunctionPrimeUnits),
   ("heating_primordial_prime", some coolingFunctionPrimeUnits),
   ("cooling_compton_prime", some coolingFunctionPrimeUnits),
   ("heating_compton_prime", some coolingFunctionPrimeUnits),
   ("cooling_metal_prime", some coolingFunctionPrimeUnits),
   ("mu", none),
   ("abundances", none)]

/-- Table `_cool_species` (source lines 86-93). -/
def coolSpecies : List String :=
  ["Electron_number_density", "HI_number_density", "HII_number_density",
   "HeI_number_density", "HeII_number_density", "HeIII_number_density"]

/-- One entry of the `tvals` mapping built by the read loop. -/
structure TValEntry where
  values : List (List ℚ)
  unit : Option String

/-- numpy `reshape((n1, n2), order="F")` of a flat vector: entry `(i, j)` is
`v[i + j * n1]`. -/
def reshapeF (n1 n2 : Nat) (v : List ℚ) : List (List ℚ) :=
  (List.range n1).map (fun i => (List.range n2).map (fun j => v.getD (i + j * n1) 0))

/-- Species slice `s` of the numpy `reshape((n1, n2, k), order="F")` of a
flat vector: entry `(i, j)` is `v[i + j * n1 + s * n1 * n2]`. -/
def reshapeF3Slice (n1 n2 s : Nat) (v : List ℚ) : List (List ℚ) :=
  (List.range n1).map
    (fun i => (List.range n2).map (fun j => v.getD (i + j * n1 + s * n1 * n2) 0))

/-- The `for i, (tname, unit) in enumerate(_cool_arrs)` read loop (source
lines 472-493), over the name/unit sequence zipped with the value arrays
read from the file; `i` is the running enumeration index.  `none` models
the legacy-format early `return False` taken when the first value array has
size `n1`; otherwise each array is reshaped to `(n1, n2)` when its size is
`n1 * n2`, and split into per-species `(n1, n2)` slices otherwise. -/
def readCoolLoopAux (n1 n2 : Nat) (i : Nat) :
    List ((String × Option String) × List ℚ) → Option (List (String × TValEntry))
  | [] => some []
  | ((tname, unit), var) :: rest =>
    if var.length = n1 ∧ i = 0 then none
    else
      let entries :=
        if var.length = n1 * n2 then [(tname, TValEntry.mk (reshapeF n1 n2 var) unit)]
        else
          (List.range (var.length / (n1 * n2))).map
            (fun s => (coolSpecies.getD s "",
              TValEntry.mk (reshapeF3Slice n1 n2 s var) (some "1/cm**3")))
      (readCoolLoopAux n1 n2 (i + 1) rest).map (fun tl => entries ++ tl)

/-- Warning logged when the cooling file is absent (source line 429). -/
def noCoolingWarning : String := "This output has no cooling fields"

/-- Warning logged for the unsupported pre-2010 legacy format (source
lines 477-480). -/
def legacyFormatWarning : String :=
  "This cooling file format is no longer supported. Cooling field loading skipped."

/-- Function `create_cooling_fields` (source lines 423-561), reduced to its
observable outcome: the returned boolean together with the warnings logged
on the way.  `none` models the `os.path.exists` check failing (return
`False` after logging, line 428-430); a legacy-format first array aborts
with `False` (lines 474-481); otherwise the table set is built and the
function returns `True`.  The field registrations performed on success are
modelled separately (`coolingFieldFunc`, `bilinearEval`,
`temperatureEval`). -/
def createCoolingFields (file : Option CoolingFile) : Bool × List String :=
  match file with
  | none => (false, [noCoolingWarning])
  | some f =>
    match readCoolLoopAux f.n1 f.n2 0 (coolArrs.zip f.vars) with
    | none => (false, [legacyFormatWarning])
    | some _ => (true, [])

/-! ## Concrete sample instances (used by the witness theorems) -/

/-- A non-cosmological dataset with the scenario values of the spec:
`current_time = 10` in code time units. -/
def sampleDataset : Dataset where
  currentTime := 10
  currentTimeGyr := 10
  hubbleConstant := 7 / 10
  tFrwZero := 0
  conformalToPhysical := fun t => t
  cosmologicalSimulation := false
  useConformalTime := false
  selfShielding := false
  maxLevel := 3
  axisOrder := ["x", "y", "z"]

/-- Concrete per-field sample values for the scenarios: a star particle born
at `t = 3`, x-face magnetic values 1 and 3, cell size `dx = 1`, and simple
gas-state values. -/
def sampleFieldValues (k : FieldKey) : ℚ :=
  if k = ⟨"io", "particle_birth_time"⟩ then 3
  else if k = ⟨"gas", "magnetic_field_x_left"⟩ then 1
  else if k = ⟨"gas", "magnetic_field_x_right"⟩ then 3
  else if k = ⟨"gas", "dx"⟩ then 1
  else if k = ⟨"gas", "temperature_over_mu"⟩ then 5
  else if k = ⟨"gas", "mu"⟩ then 2
  else if k = ⟨"gas", "metallicity"⟩ then 1 / 100
  else if k = ⟨"gas", "density"⟩ then 4
  else if k = ⟨"gas", "number_density"⟩ then 8
  else 0

/-- The sample data context (not a `FieldDetector`). -/
def sampleData : Data where
  ds := sampleDataset
  fields := sampleFieldValues
  isFieldDetector := false

/-- The sample data context during a dependency-detection pass. -/
def sampleDetectorData : Data where
  ds := sampleDataset
  fields := sampleFieldValues
  isFieldDetector := true

/-- Identity stand-ins for the numeric collaborators, enough to instantiate
the universally quantified theorems at a concrete point. -/
def sampleOps : MathOps where
  log10 := fun x => x
  exp := fun x => x
  pow10 := fun x => x

/-- A flat vector of `n` zeros, standing for an uninteresting `n1 * n2`
table read from the file. -/
def zeroVec (n : Nat) : List ℚ := List.replicate n 0

/-- A well-formed cooling file: `n1 = n2 = 2`, axes `[0, 1]` and `[4, 5]`,
ten flat `2 * 2` cooling tables, the `mu` table `[[1, 1], [6/5, 6/5]]`
stored column-major, and a `2 * 2 * 6` abundances stack. -/
def goodCoolingFile : CoolingFile where
  n1 := 2
  n2 := 2
  lognH := [0, 1]
  logT := [4, 5]
  vars := [zeroVec 4, zeroVec 4, zeroVec 4, zeroVec 4, zeroVec 4,
           zeroVec 4, zeroVec 4, zeroVec 4, zeroVec 4, zeroVec 4,
           [1, 6 / 5, 1, 6 / 5], zeroVec 24]

/-- A cooling file in the unsupported pre-2010 layout: the first value
array has size `n1` (here 2) instead of `n1 * n2` (here 6). -/
def legacyCoolingFile : CoolingFile where
  n1 := 2
  n2 := 3
  lognH := [0, 1]
  logT := [4, 5, 6]
  vars := [zeroVec 2, zeroVec 6, zeroVec 6, zeroVec 6, zeroVec 6,
           zeroVec 6, zeroVec 6, zeroVec 6, zeroVec 6, zeroVec 6,
           zeroVec 6, zeroVec 36]

/-- The spec-scenario `mu` lookup table `[[1, 1], [6/5, 6/5]]` over
`lognH = [0, 1]`, `logT = [4, 5]`. -/
def muTable : List (List ℚ) := [[1, 1], [6 / 5, 6 / 5]]


/-! ## Theorems -/

/-- After at least one evaluation of the fallback temperature field against
a non-detector context, the warning registry holds exactly the old entries
plus the degraded-temperature message appended once. -/
lemma tempWarnStateAfter_recorded (data : Data) (ws : WarnState)
    (hdet : data.isFieldDetector = false)
    (h0 : degradedTemperatureWarning ∉ ws.recorded) :
    ∀ n, 1 ≤ n →
      (tempWarnStateAfter false data n ws).recorded
        = ws.recorded ++ [degradedTemperatureWarning] := by
  intro n hn
  induction n with
  | zero => exact absurd hn (by omega)
  | succ m ih =>
    rcases Nat.eq_zero_or_pos m with hm | hm
    · subst hm
      simp only [tempWarnStateAfter, temperatureEval, if_neg Bool.false_ne_true, hdet,
        Bool.false_eq_true, if_false, warnRecord, if_neg h0]
    · have hrec := ih hm
      simp only [tempWarnStateAfter, temperatureEval, if_neg Bool.false_ne_true, hdet,
        Bool.false_eq_true, if_false, warnRecord, hrec]
      rw [if_pos (by simp)]
      exact hrec

/-- C1: when the cooling-table file is absent, `create_cooling_fields`
returns `False` (a plain return value, not an exception: the missing-file
path is an existence check, a log call and `return False`), the fallback
`("gas", "temperature")` evaluator returns exactly
`("gas", "temperature_over_mu")`, and the degraded-temperature
`RuntimeWarning` is recorded exactly once after the first
evaluation (and stays recorded once over any further evaluations). -/
theorem cooling_absent_temperature_fallback (data : Data) (ws : WarnState) (n : Nat)
    (hdet : data.isFieldDetector = false)
    (h0 : degradedTemperatureWarning ∉ ws.recorded) (hn : 1 ≤ n) :
    (createCoolingFields none).1 = false ∧
    (temperatureEval (createCoolingFields none).1 data ws).1
      = data.fields ⟨"gas", "temperature_over_mu"⟩ ∧
    ((tempWarnStateAfter (createCoolingFields none).1 data n ws).recorded.count
      degradedTemperatureWarning) = 1 := by
  refine ⟨rfl, rfl, ?_⟩
  show (tempWarnStateAfter false data n ws).recorded.count degradedTemperatureWarning = 1
  rw [tempWarnStateAfter_recorded data ws hdet h0 n hn, List.count_append]
  simp [List.count_eq_zero.mpr h0]

/-- Witness for C1 at a concrete context: two successive evaluations from an
empty warning registry record the message once, and the value is the
`temperature_over_mu` sample. -/
theorem cooling_absent_temperature_fallback_witness :
    (createCoolingFields none).1 = false ∧
    (temperatureEval (createCoolingFields none).1 sampleData ⟨[]⟩).1 = 5 ∧
    ((tempWarnStateAfter (createCoolingFields none).1 sampleData 2 ⟨[]⟩).recorded.count
      degradedTemperatureWarning) = 1 := by
  obtain ⟨h1, h2, h3⟩ :=
    cooling_absent_temperature_fallback sampleData ⟨[]⟩ 2 rfl (by simp) (by omega)
  refine ⟨h1, ?_, h3⟩
  rw [h2]
  rfl

/-- C2: when `create_cooling_fields` succeeds, the registered
`("gas", "temperature")` evaluator returns, on every data context, the
product of the `("gas", "temperature_over_mu")` and `("gas", "mu")`
samples of that context. -/
theorem cooling_found_temperature_product (file : Option CoolingFile) (data : Data)
    (ws : WarnState) (h : (createCoolingFields file).1 = true) :
    (temperatureEval (createCoolingFields file).1 data ws).1
      = data.fields ⟨"gas", "temperature_over_mu"⟩ * data.fields ⟨"gas", "mu"⟩ := by
  rw [h]
  rfl

/-- Witness for C2: a well-formed cooling file makes
`create_cooling_fields` return `True`, and the temperature sample is then
`temperature_over_mu * mu = 5 * 2`. -/
theorem cooling_found_temperature_product_witness :
    (createCoolingFields (some goodCoolingFile)).1 = true ∧
    (temperatureEval (createCoolingFields (some goodCoolingFile)).1 sampleData ⟨[]⟩).1
      = 10 := by
  have ht : (createCoolingFields (some goodCoolingFile)).1 = true := by decide
  refine ⟨ht, ?_⟩
  rw [cooling_found_temperature_product (some goodCoolingFile) sampleData ⟨[]⟩ ht]
  have h1 : sampleData.fields ⟨"gas", "temperature_over_mu"⟩ = 5 := rfl
  have h2 : sampleData.fields ⟨"gas", "mu"⟩ = 2 := rfl
  rw [h1, h2]
  norm_num

/-- C9: on a `FieldDetector` context the fallback temperature evaluator
records no warning at all (the warning state is returned untouched) and
still returns the `temperature_over_mu` sample. -/
theorem detector_pass_no_warning (data : Data) (ws : WarnState)
    (hdet : data.isFieldDetector = true) :
    temperatureEval false data ws
      = (data.fields ⟨"gas", "temperature_over_mu"⟩, ws) := by
  simp [temperatureEval, hdet]

/-- Witness for C9 at a concrete detector context with an empty registry. -/
theorem detector_pass_no_warning_witness :
    temperatureEval false sampleDetectorData ⟨[]⟩ = (5, ⟨[]⟩) := by
  rw [detector_pass_no_warning sampleDetectorData ⟨[]⟩ rfl]
  rfl

/-- C3: `setup_particle_fields` selects the conformal-cosmological
evaluator exactly when both flags are set, the physical-cosmological one
when only `cosmological_simulation` is set, and the non-cosmological one
otherwise; in the non-cosmological case the registered evaluator computes
`current_time - particle_birth_time`. -/
theorem star_age_formula_selection (ds : Dataset) (ptype : String) :
    (ds.cosmologicalSimulation = true → ds.useConformalTime = true →
        starAgeFun ds ptype = starAgeFromConformalCosmo ptype) ∧
    (ds.cosmologicalSimulation = true → ds.useConformalTime = false →
        starAgeFun ds ptype = starAgeFromPhysicalCosmo ptype) ∧
    (ds.cosmologicalSimulation = false → starAgeFun ds ptype = starAge ptype) ∧
    (ds.cosmologicalSimulation = false → ∀ data : Data,
        starAgeFun ds ptype data
          = data.ds.currentTime - data.fields ⟨ptype, "particle_birth_time"⟩) := by
  refine ⟨fun h1 h2 => ?_, fun h1 h2 => ?_, fun h1 => ?_, fun h1 data => ?_⟩
  · simp [starAgeFun, h1, h2]
  · simp [starAgeFun, h1, h2]
  · simp [starAgeFun, h1]
  · simp [starAgeFun, h1, starAge]

/-- Witness for C3, the non-cosmological scenario: `current_time = 10` and
`particle_birth_time = 3` give `star_age = 7` (in the declared time unit),
and the selected evaluator is the direct-subtraction one. -/
theorem star_age_formula_selection_witness :
    starAgeFun sampleDataset "io" = starAge "io" ∧
    starAgeFun sampleDataset "io" sampleData = 7 := by
  have h := star_age_formula_selection sampleDataset "io"
  refine ⟨h.2.2.1 rfl, ?_⟩
  rw [h.2.2.2 rfl sampleData]
  have h1 : sampleData.ds.currentTime = 10 := rfl
  have h2 : sampleData.fields ⟨"io", "particle_birth_time"⟩ = 3 := rfl
  rw [h1, h2]
  norm_num

/-- C4: with the face fields present, `create_magnetic_fields` registers,
for every axis of the dataset, a cell-centred field whose value is the
average of the left and right face samples, and a divergence field whose
value is the sum over the axes of (right − left) divided by the cell size
`dx`. -/
theorem magnetic_fields_centering_and_divergence (data : Data) (ax : String)
    (horder : data.ds.axisOrder = ["x", "y", "z"]) (hax : ax ∈ data.ds.axisOrder) :
    (∃ f, lookupField (createMagneticFields data.ds []) ⟨"gas", "magnetic_field_" ++ ax⟩
        = some f ∧
      f data = (data.fields ⟨"gas", "magnetic_field_" ++ ax ++ "_left"⟩
        + data.fields ⟨"gas", "magnetic_field_" ++ ax ++ "_right"⟩) / 2) ∧
    (∃ g, lookupField (createMagneticFields data.ds [])
        ⟨"gas", "magnetic_field_divergence"⟩ = some g ∧
      g data = ((data.ds.axisOrder.map (fun a =>
          data.fields ⟨"gas", "magnetic_field_" ++ a ++ "_right"⟩
            - data.fields ⟨"gas", "magnetic_field_" ++ a ++ "_left"⟩)).sum)
        / data.fields ⟨"gas", "dx"⟩) := by
  rw [horder] at hax
  simp only [List.mem_cons, List.not_mem_nil, or_false] at hax
  constructor
  · refine ⟨magFieldEval ax, ?_, rfl⟩
    rcases hax with rfl | rfl | rfl
    · simp only [createMagneticFields, horder]
      rfl
    · simp only [createMagneticFields, horder]
      rfl
    · simp only [createMagneticFields, horder]
      rfl
  · refine ⟨divBEval, ?_, ?_⟩
    · simp only [createMagneticFields, horder]
      rfl
    · simp only [divBEval, horder, List.foldl_cons, List.foldl_nil, List.map_cons,
        List.map_nil, List.sum_cons, List.sum_nil]
      ring_nf

/-- Witness for C4, the spec scenario on axis x: `left = 1`, `right = 3`
and `dx = 1` give a centred value of 2 and a divergence of
`(3 - 1) / dx = 2` (the y and z face samples are 0). -/
theorem magnetic_fields_centering_and_divergence_witness :
    (∃ f, lookupField (createMagneticFields sampleData.ds [])
        ⟨"gas", "magnetic_field_x"⟩ = some f ∧ f sampleData = 2) ∧
    (∃ g, lookupField (createMagneticFields sampleData.ds [])
        ⟨"gas", "magnetic_field_divergence"⟩ = some g ∧ g sampleData = 2) := by
  obtain ⟨⟨f, hf, hfv⟩, ⟨g, hg, hgv⟩⟩ :=
    magnetic_fields_centering_and_divergence sampleData "x" rfl (by decide)
  constructor
  · refine ⟨f, hf, ?_⟩
    rw [hfv]
    have h1 : sampleData.fields ⟨"gas", "magnetic_field_" ++ "x" ++ "_left"⟩ = 1 := rfl
    have h2 : sampleData.fields ⟨"gas", "magnetic_field_" ++ "x" ++ "_right"⟩ = 3 := rfl
    rw [h1, h2]
    norm_num
  · refine ⟨g, hg, ?_⟩
    rw [hgv]
    have horder : sampleData.ds.axisOrder = ["x", "y", "z"] := rfl
    rw [horder]
    have hx : sampleData.fields ⟨"gas", "magnetic_field_" ++ "x" ++ "_right"⟩
        - sampleData.fields ⟨"gas", "magnetic_field_" ++ "x" ++ "_left"⟩ = 3 - 1 := rfl
    have hy : sampleData.fields ⟨"gas", "magnetic_field_" ++ "y" ++ "_right"⟩
        - sampleData.fields ⟨"gas", "magnetic_field_" ++ "y" ++ "_left"⟩ = 0 - 0 := rfl
    have hz : sampleData.fields ⟨"gas", "magnetic_field_" ++ "z" ++ "_right"⟩
        - sampleData.fields ⟨"gas", "magnetic_field_" ++ "z" ++ "_left"⟩ = 0 - 0 := rfl
    have hdx : sampleData.fields ⟨"gas", "dx"⟩ = 1 := rfl
    rw [List.map_cons, List.map_cons, List.map_cons, List.map_nil, hx, hy, hz, hdx]
    norm_num

/-- The enumeration-indexed cooling read loop can only abort on the entry
with index 0: started at any non-zero index it always succeeds, whatever
the array sizes are. -/
lemma readCoolLoopAux_ne_none (n1 n2 : Nat) :
    ∀ (arrs : List ((String × Option String) × List ℚ)) (i : Nat), i ≠ 0 →
      readCoolLoopAux n1 n2 i arrs ≠ none := by
  intro arrs
  induction arrs with
  | nil =>
    intro i hi
    simp [readCoolLoopAux]
  | cons hd tl ih =>
    intro i hi
    obtain ⟨⟨tname, unit⟩, var⟩ := hd
    have hcond : ¬(var.length = n1 ∧ i = 0) := fun hc => hi hc.2
    simp only [readCoolLoopAux, if_neg hcond]
    intro hmap
    exact ih (i + 1) (by omega) (Option.map_eq_none.mp hmap)

/-- C5: a first value array of size `n1` (and not `n1 * n2`) makes
`create_cooling_fields` log the legacy-format warning and return `False`
— the same boolean outcome as a missing file — without raising (the loop
is a total function here; the translated path contains no exception
source); and the size check is applied only at enumeration index 0: from
any later index the loop never aborts. -/
theorem legacy_cooling_format_aborts (f : CoolingFile) (v0 : List ℚ)
    (rest : List (List ℚ)) (hv : f.vars = v0 :: rest)
    (h1 : v0.length = f.n1) (h2 : v0.length ≠ f.n1 * f.n2) :
    createCoolingFields (some f) = (false, [legacyFormatWarning]) ∧
    (createCoolingFields (some f)).1 = (createCoolingFields none).1 ∧
    (∀ arrs i, i ≠ 0 → readCoolLoopAux f.n1 f.n2 i arrs ≠ none) := by
  have habort : readCoolLoopAux f.n1 f.n2 0 (coolArrs.zip f.vars) = none := by
    rw [hv]
    simp only [coolArrs, List.zip_cons_cons, readCoolLoopAux]
    rw [if_pos ⟨h1, trivial⟩]
  refine ⟨?_, ?_, fun arrs i hi => readCoolLoopAux_ne_none f.n1 f.n2 arrs i hi⟩
  · simp only [createCoolingFields, habort]
  · simp only [createCoolingFields, habort]

/-- Witness for C5: a concrete legacy file (`n1 = 2`, `n2 = 3`, first array
of size 2) yields exactly the missing-file boolean outcome plus the legacy
warning. -/
theorem legacy_cooling_format_aborts_witness :
    createCoolingFields (some legacyCoolingFile) = (false, [legacyFormatWarning]) ∧
    (createCoolingFields (some legacyCoolingFile)).1 = (createCoolingFields none).1 := by
  obtain ⟨ha, hb, _⟩ :=
    legacy_cooling_format_aborts legacyCoolingFile (zeroVec 2)
      (legacyCoolingFile.vars.tail) rfl (by decide) (by decide)
  exact ⟨ha, hb⟩

/-- C6: for cooling-table-derived fields, a name with a `metal` underscore
component scales the interpolated value by `metallicity / 0.02`; a name
with a `compton` component (the code checks `metal` first, and no
registered name has both) instead divides the per-volume-reinterpreted
value by the `("gas", "number_density")` sample; every other name returns
the interpolated value unscaled. -/
theorem cooling_field_scaling (ops : MathOps) (name : FieldKey)
    (interp : ℚ → ℚ → ℚ) (data : Data) :
    ("metal" ∈ splitOnUnderscore name.fname →
        coolingFieldFunc ops name interp data
          = coolingRawValue ops name interp data
              * data.fields ⟨"gas", "metallicity"⟩ / (2 / 100)) ∧
    ("compton" ∈ splitOnUnderscore name.fname →
      "metal" ∉ splitOnUnderscore name.fname →
        coolingFieldFunc ops name interp data
          = coolingRawValue ops name interp data
              / data.fields ⟨"gas", "number_density"⟩) ∧
    ("metal" ∉ splitOnUnderscore name.fname →
      "compton" ∉ splitOnUnderscore name.fname →
        coolingFieldFunc ops name interp data
          = coolingRawValue ops name interp data) := by
  refine ⟨fun hm => ?_, fun hc hm => ?_, fun hm hc => ?_⟩
  · simp [coolingFieldFunc, hm]
  · simp [coolingFieldFunc, hc, hm]
  · simp [coolingFieldFunc, hm, hc]

/-- Witness for C6 on the three kinds of registered names, with an
interpolator constantly 3 and identity numeric stand-ins:
`cooling_metal` gives `3 * (1/100) / (2/100) = 3/2`, `cooling_compton`
gives `3 / 8`, `cooling_primordial` gives 3. -/
theorem cooling_field_scaling_witness :
    coolingFieldFunc sampleOps ⟨"gas", "cooling_metal"⟩ (fun _ _ => 3) sampleData
      = 3 / 2 ∧
    coolingFieldFunc sampleOps ⟨"gas", "cooling_compton"⟩ (fun _ _ => 3) sampleData
      = 3 / 8 ∧
    coolingFieldFunc sampleOps ⟨"gas", "cooling_primordial"⟩ (fun _ _ => 3) sampleData
      = 3 := by
  refine ⟨?_, ?_, ?_⟩
  · rw [(cooling_field_scaling sampleOps ⟨"gas", "cooling_metal"⟩
      (fun _ _ => 3) sampleData).1 (by decide)]
    have hr : coolingRawValue sampleOps ⟨"gas", "cooling_metal"⟩
        (fun _ _ => 3) sampleData = 3 := rfl
    have hz : sampleData.fields ⟨"gas", "metallicity"⟩ = 1 / 100 := rfl
    rw [hr, hz]
    norm_num
  · rw [(cooling_field_scaling sampleOps ⟨"gas", "cooling_compton"⟩
      (fun _ _ => 3) sampleData).2.1 (by decide) (by decide)]
    have hr : coolingRawValue sampleOps ⟨"gas", "cooling_compton"⟩
        (fun _ _ => 3) sampleData = 3 := rfl
    have hn : sampleData.fields ⟨"gas", "number_density"⟩ = 8 := rfl
    rw [hr, hn]
  · rw [(cooling_field_scaling sampleOps ⟨"gas", "cooling_primordial"⟩
      (fun _ _ => 3) sampleData).2.2 (by decide) (by decide)]
    rfl

/-- C7: on the spec-scenario `mu` table (`lognH = [0, 1]`, `logT = [4, 5]`,
values `[[1, 1], [6/5, 6/5]]`, truncation enabled), the interpolator
returns exactly the stored sample 1 at the grid point `(0, 4)` and the
clamped boundary-row value `6/5` at the out-of-range point `(2, 4)`; and
the `("gas", "mu")` evaluator applies no `10 **` exponentiation and no
scaling: it returns the raw interpolated value at the computed query
coordinates. -/
theorem mu_lookup_truncation :
    bilinearEval [0, 1] [4, 5] muTable 0 4 = 1 ∧
    bilinearEval [0, 1] [4, 5] muTable 2 4 = 6 / 5 ∧
    (∀ (ops : MathOps) (data : Data) (interp : ℚ → ℚ → ℚ),
        coolingFieldFunc ops ⟨"gas", "mu"⟩ interp data
          = interp (lognHCoordinate ops data) (logTCoordinate ops data)) := by
  refine ⟨?_, ?_, fun ops data interp => rfl⟩
  · norm_num [bilinearEval, axisIndexWeight, clampCoord, bracketIdx, tableAt, muTable]
  · norm_num [bilinearEval, axisIndexWeight, clampCoord, bracketIdx, tableAt, muTable]

/-- C8: the padded reduced-speed-of-light fraction array has length at
least `max_level + 1` (the input array read from the file is nonempty),
and the appended entries all equal the sole input element when the input
has length 1, and 1 otherwise.  (The pad width the source computes is
`max_level` exactly, because `len(["rt_c_frac"])` is the length of a
one-element list literal.) -/
theorem rt_c_frac_padding (f : List ℚ) (ml : Nat) (h : 1 ≤ f.length) :
    ml + 1 ≤ (rtCFracPadded f ml).length ∧
    rtCFracPadded f ml
      = f ++ List.replicate ml (if f.length = 1 then f.headD 0 else 1) := by
  have hw : (max 0 ((ml : Int) - ((["rt_c_frac"] : List String).length : Int) + 1)).toNat
      = ml := by
    simp
  constructor
  · simp only [rtCFracPadded, hw, List.length_append, List.length_replicate]
    omega
  · simp only [rtCFracPadded, hw]

/-- Witness for C8, both pad-value cases: a singleton `[1/2]` with
`max_level = 3` pads with its sole element to length 4, and `[1/2, 1/4]`
pads with 1 to length 5. -/
theorem rt_c_frac_padding_witness :
    (3 + 1 ≤ (rtCFracPadded [1 / 2] 3).length ∧
      rtCFracPadded [1 / 2] 3 = [1 / 2, 1 / 2, 1 / 2, 1 / 2]) ∧
    (3 + 1 ≤ (rtCFracPadded [1 / 2, 1 / 4] 3).length ∧
      rtCFracPadded [1 / 2, 1 / 4] 3 = [1 / 2, 1 / 4, 1, 1, 1]) := by
  obtain ⟨ha1, ha2⟩ := rt_c_frac_padding [1 / 2] 3 (by decide)
  obtain ⟨hb1, hb2⟩ := rt_c_frac_padding [1 / 2, 1 / 4] 3 (by decide)
  refine ⟨⟨ha1, ?_⟩, ⟨hb1, ?_⟩⟩
  · rw [ha2]
    norm_num [List.replicate]
  · rw [hb2]
    norm_num [List.replicate]

/-- C10: every cooling-table evaluator touches its interpolator only at
the query point `(log10 (nH / boost), log10 (T/mu))`; `nH` is
`(1 - 0.24) * (1 - Z) * density / mh`; with `self_shielding` set the boost
is `max (exp (-nH / 0.01)) 1e-20`, and with it unset the boost is 1, so the
`lognH` coordinate is exactly `log10 nH`. -/
theorem self_shielding_lognH_coordinate (ops : MathOps) (data : Data) :
    (∀ (name : FieldKey) (interp1 interp2 : ℚ → ℚ → ℚ),
        interp1 (lognHCoordinate ops data) (logTCoordinate ops data)
          = interp2 (lognHCoordinate ops data) (logTCoordinate ops data) →
        coolingFieldFunc ops name interp1 data
          = coolingFieldFunc ops name interp2 data) ∧
    lognHCoordinate ops data = ops.log10 (nHValue data / boostValue ops data) ∧
    nHValue data = (1 - 24 / 100) * (1 - data.fields ⟨"gas", "metallicity"⟩)
        * data.fields ⟨"gas", "density"⟩ / mhCgs ∧
    (data.ds.selfShielding = true →
        boostValue ops data
          = max (ops.exp (-(nHValue data) / (1 / 100))) (1 / 10 ^ 20)) ∧
    (data.ds.selfShielding = false →
        lognHCoordinate ops data = ops.log10 (nHValue data)) := by
  refine ⟨fun name interp1 interp2 hi => ?_, rfl, rfl, fun hs => ?_, fun hs => ?_⟩
  · simp only [coolingFieldFunc, coolingRawValue, hi]
  · simp [boostValue, hs]
  · simp [lognHCoordinate, boostValue, hs]

/-- Witness for C10 at a concrete non-self-shielding context: the
coordinate equals `log10 nH` (an identity stand-in for `log10`), and two
interpolators agreeing at the computed query point give the same field
value. -/
theorem self_shielding_lognH_coordinate_witness :
    lognHCoordinate sampleOps sampleData = sampleOps.log10 (nHValue sampleData) ∧
    coolingFieldFunc sampleOps ⟨"gas", "cooling_primordial"⟩
        (fun a b => a + b) sampleData
      = coolingFieldFunc sampleOps ⟨"gas", "cooling_primordial"⟩
        (fun a b => b + a) sampleData := by
  have h := self_shielding_lognH_coordinate sampleOps sampleData
  exact ⟨h.2.2.2.2 rfl,
    h.1 ⟨"gas", "cooling_primordial"⟩ (fun a b => a + b) (fun a b => b + a)
      (add_comm _ _)⟩

end RamsesFields
